import Mathlib

/-!
Verification of the workflow orchestration of the mtg_ssm spreadsheet
manager.  The embedded code is `src/mtgss_manager.py`: the function
`run_commands` (phase sequence of one run inside one transactional
session) and the data-path checks performed by `main` before it.

The embedding is a shallow one.  The five `manager_helper` calls
(`read_mtgjson`, `read_xlsx`, `read_csv`, `write_xlsx`, `write_csv`) are
opaque externally-visible actions; a run is modelled as the ordered
trace of these actions together with the evolution of the session's
committed and pending row sets.  Whether each helper call succeeds or
raises is supplied by an oracle, one Boolean per helper, since the
helpers' bodies live outside the orchestrator.  A helper call that
raises still appears in the trace (it was invoked), contributes no
surviving rows, and makes every later statement of the `try` block
unreachable, exactly as a Python exception does; the `finally` clause
closes the session on every path.
-/

/-- The four subcommands registered on the argparse subparser in
`get_parser`: `create`, `update`, `export`, `import` (the latter two
named `exportCmd` / `importCmd` here because of Lean keywords). -/
inductive Command where
  | create
  | update
  | exportCmd
  | importCmd
  deriving DecidableEq, Repr

/-- One externally visible action of a run: a `manager_helper` call, a
`session.commit()`, or the final `session.close()`.  The constructor
`backup` stands for "make a backup copy of the spreadsheet file"; it is
part of the vocabulary because the `import` subcommand's help text
promises a backup, and the theorems below ask whether any code path of
`run_commands` performs one. -/
inductive Event where
  | read_mtgjson
  | commit
  | read_xlsx
  | read_csv
  | write_xlsx
  | write_csv
  | backup
  | session_close
  deriving DecidableEq, Repr

/-- Rows that a load phase stages into the session: catalog rows from
`read_mtgjson`, collection rows from `read_xlsx` or `read_csv`. -/
inductive Eff where
  | catalog_rows
  | xlsx_rows
  | csv_rows
  deriving DecidableEq, Repr

/-- Success oracle for the five helper calls of one run: `true` means
the call returns normally, `false` means it raises. -/
structure Oracle where
  mtgjson_ok : Bool
  xlsx_ok : Bool
  csv_ok : Bool
  write_xlsx_ok : Bool
  write_csv_ok : Bool
  deriving DecidableEq, Repr

/-- State of one run: the trace of actions so far, the rows committed to
the store, the rows staged but not yet committed, and whether execution
of the `try` block is still alive (`ok = false` once a call raised). -/
structure RunState where
  trace : List Event
  committed : List Eff
  pending : List Eff
  ok : Bool
  deriving DecidableEq, Repr

/-- Embedding of `sqla.create_engine(url)`: a file-backed URL opens
whatever store is persisted at that path, while the in-memory URL
`sqlite://` used by `run_commands` yields a fresh empty store regardless
of anything persisted by earlier invocations. -/
def create_engine (url : String) (persisted : String → List Eff) : List Eff :=
  if url = "sqlite://" then [] else persisted url

/-- One helper call inside the `try` block: skipped when a previous call
already raised; otherwise it is appended to the trace, stages its rows
when it succeeds, and kills the rest of the block when it raises. -/
def call (s : RunState) (e : Event) (eff : Option Eff) (succeeds : Bool) : RunState :=
  if s.ok then
    { s with
        trace := s.trace ++ [e]
        pending := if succeeds then s.pending ++ eff.toList else s.pending
        ok := succeeds }
  else s

/-- `session.commit()`: moves the staged rows into the committed store.
Skipped when a previous call already raised (the exception has left the
`try` block). -/
def session_commit (s : RunState) : RunState :=
  if s.ok then
    { s with
        trace := s.trace ++ [Event.commit]
        committed := s.committed ++ s.pending
        pending := [] }
  else s

/-- `session.close()` in the `finally` clause: runs on every path,
discards any uncommitted staged rows, and is the last action. -/
def session_close (s : RunState) : RunState :=
  { s with trace := s.trace ++ [Event.session_close], pending := [] }

/-- The `try` block of `run_commands`, phase by phase, exactly in source
order: `read_mtgjson`; `commit`; `read_xlsx` when the command is
`update` or `export`; `commit`; `read_csv` when the command is `import`
and the format is csv; `commit`; `write_xlsx` when the command is
`create` or `update`; `write_csv` when the command is `export` and the
format is csv. -/
def run_commands_body (cmd : Command) (fmt : String) (o : Oracle) (s0 : RunState) : RunState :=
  let s1 := call s0 Event.read_mtgjson (some Eff.catalog_rows) o.mtgjson_ok
  let s2 := session_commit s1
  let s3 := if cmd = Command.update ∨ cmd = Command.exportCmd then
      call s2 Event.read_xlsx (some Eff.xlsx_rows) o.xlsx_ok
    else s2
  let s4 := session_commit s3
  let s5 := if cmd = Command.importCmd then
      (if fmt = "csv" then call s4 Event.read_csv (some Eff.csv_rows) o.csv_ok else s4)
    else s4
  let s6 := session_commit s5
  let s7 := if cmd = Command.create ∨ cmd = Command.update then
      call s6 Event.write_xlsx none o.write_xlsx_ok
    else s6
  let s8 := if cmd = Command.exportCmd then
      (if fmt = "csv" then call s7 Event.write_csv none o.write_csv_ok else s7)
    else s7
  s8

/-- Embedding of `run_commands`: create a fresh in-memory engine and
session, run the `try` block, and close the session in `finally`.
`persisted` is whatever store contents earlier invocations left on
disk; the source's engine URL is the in-memory `sqlite://`. -/
def run_commands (persisted : String → List Eff) (cmd : Command) (fmt : String)
    (o : Oracle) : RunState :=
  session_close (run_commands_body cmd fmt o
    { trace := []
      committed := create_engine "sqlite://" persisted
      pending := []
      ok := true })

/-- The error raised by `main` when the data path exists but is not a
directory (the source interpolates the offending path into the
message). -/
def data_path_error : String := "data_path must be a folder"

/-- Embedding of the source's `main` (named `main_fn` since Lean reserves
`main`): the data-path handling before `run_commands`.  A missing path is created with `os.makedirs` and the run proceeds; an
existing non-directory path raises before any session work; otherwise
the run proceeds.  The Boolean in the result records whether `makedirs`
was called. -/
def main_fn (path_on_disk is_directory : Bool) (persisted : String → List Eff)
    (cmd : Command) (fmt : String) (o : Oracle) : Except String (Bool × RunState) :=
  if path_on_disk = false then Except.ok (true, run_commands persisted cmd fmt o)
  else if is_directory = false then Except.error data_path_error
  else Except.ok (false, run_commands persisted cmd fmt o)

/-- Trace of a completed `main` invocation: empty when `main` raised
before the session existed. -/
def main_trace : Except String (Bool × RunState) → List Event
  | Except.error _ => []
  | Except.ok (_, s) => s.trace

/-- No store was persisted by any earlier invocation. -/
def no_persisted : String → List Eff := fun _ => []

/-- Oracle on which every helper call succeeds. -/
def all_ok : Oracle := ⟨true, true, true, true, true⟩

/-- Checks that a list of events contains no `commit`. -/
def commit_free : List Event → Bool
  | [] => true
  | e :: r => if e = Event.commit then false else commit_free r

/-- Checks that no `commit` occurs anywhere after a write action. -/
def no_commit_after_write : List Event → Bool
  | [] => true
  | e :: r =>
    if e = Event.write_xlsx ∨ e = Event.write_csv then commit_free r
    else no_commit_after_write r

example :
    (run_commands no_persisted Command.update "csv" all_ok).trace =
      [Event.read_mtgjson, Event.commit, Event.read_xlsx, Event.commit,
       Event.commit, Event.write_xlsx, Event.session_close] := by decide

example :
    (run_commands no_persisted Command.update "csv"
      ⟨true, false, true, true, true⟩).trace =
      [Event.read_mtgjson, Event.commit, Event.read_xlsx, Event.session_close] := by decide

example :
    (run_commands no_persisted Command.exportCmd "csv" all_ok).committed =
      [Eff.catalog_rows, Eff.xlsx_rows] := by decide

/-- The run is unaffected by what earlier invocations persisted, because
the engine URL is the in-memory `sqlite://`: definitional equality. -/
lemma run_commands_persisted_irrel (p : String → List Eff) (cmd : Command)
    (fmt : String) (o : Oracle) :
    run_commands p cmd fmt o = run_commands no_persisted cmd fmt o := rfl

/-- Any format string other than "csv" behaves like the fixed non-csv
string "txt": the format is only ever compared against "csv". -/
lemma run_commands_fmt_irrel (p : String → List Eff) (cmd : Command) (o : Oracle)
    (fmt : String) (hf : ¬ fmt = "csv") :
    run_commands p cmd fmt o = run_commands p cmd "txt" o := by
  cases cmd <;> simp [run_commands, run_commands_body, hf]

/-- C1: evaluation of the code at the failing input (operation `import`,
format csv, every helper call succeeding).  The run performs no backup
and never writes the spreadsheet or the export file — `run_commands`
calls `write_xlsx` only for `create`/`update` — so the backup promised
by the `import` subcommand's own help text, and the destructive
overwrite it is supposed to precede, never happen. -/
theorem c1_import_run_makes_no_backup_and_no_write :
    Event.backup ∉ (run_commands no_persisted Command.importCmd "csv" all_ok).trace ∧
    Event.write_xlsx ∉ (run_commands no_persisted Command.importCmd "csv" all_ok).trace ∧
    Event.write_csv ∉ (run_commands no_persisted Command.importCmd "csv" all_ok).trace ∧
    (run_commands no_persisted Command.importCmd "csv" all_ok).trace =
      [Event.read_mtgjson, Event.commit, Event.commit, Event.read_csv,
       Event.commit, Event.session_close] := by decide

/-- C2 counterexample: with the catalog data path missing, `main` does
not abort; it creates the directory with `os.makedirs` and proceeds into
the run, whose session performs the catalog read and a commit — so
transactional work begins despite the missing path. -/
theorem c2_missing_data_path_does_not_abort :
    main_fn false false no_persisted Command.update "csv" all_ok =
      Except.ok (true, run_commands no_persisted Command.update "csv" all_ok) ∧
    Event.read_mtgjson ∈
      main_trace (main_fn false false no_persisted Command.update "csv" all_ok) ∧
    Event.commit ∈
      main_trace (main_fn false false no_persisted Command.update "csv" all_ok) := by
  refine ⟨rfl, ?_, ?_⟩ <;> decide

/-- C2 amended: `main` aborts with an error before any session work
exactly when the data path exists and is not a directory; a missing data
path is not fatal — `main` creates the directory and proceeds into the
transactional run. -/
theorem c2_amended_data_path_check (pe d : Bool) (p : String → List Eff)
    (cmd : Command) (fmt : String) (o : Oracle) :
    (main_fn pe d p cmd fmt o = Except.error data_path_error ↔ pe = true ∧ d = false) ∧
    (pe = false → main_fn pe d p cmd fmt o = Except.ok (true, run_commands p cmd fmt o)) := by
  cases pe <;> cases d <;> simp [main_fn]

/-- C2 amended, witness: the abort happens at an existing non-directory
path, and the run proceeds at an existing directory path. -/
theorem c2_amended_data_path_check_witness :
    main_fn true false no_persisted Command.create "csv" all_ok =
      Except.error data_path_error ∧
    main_fn false true no_persisted Command.create "csv" all_ok =
      Except.ok (true, run_commands no_persisted Command.create "csv" all_ok) :=
  ⟨(c2_amended_data_path_check true false no_persisted Command.create "csv" all_ok).1.mpr
      ⟨rfl, rfl⟩,
    (c2_amended_data_path_check false true no_persisted Command.create "csv" all_ok).2 rfl⟩

/-- C4: for every operation, every format string and every success
oracle, the catalog load (`read_mtgjson`) is the first action of the
run — executed unconditionally before any spreadsheet read, import
read, or write. -/
theorem c4_catalog_load_is_first_phase (p : String → List Eff) (cmd : Command)
    (fmt : String) (o : Oracle) :
    (run_commands p cmd fmt o).trace.head? = some Event.read_mtgjson := by
  obtain ⟨m, x, c, wx, wc⟩ := o
  rw [run_commands_persisted_irrel]
  by_cases hf : fmt = "csv"
  · subst hf
    cases cmd <;> cases m <;> cases x <;> cases c <;> cases wx <;> cases wc <;> decide
  · rw [run_commands_fmt_irrel no_persisted cmd ⟨m, x, c, wx, wc⟩ fmt hf]
    cases cmd <;> cases m <;> cases x <;> cases c <;> cases wx <;> cases wc <;> decide

/-- C3: if any executed load phase raises — the catalog load, the prior
spreadsheet read, or the import read — then all remaining phases are
skipped and no target file is written in that run.  "All remaining
phases skipped" is stated maximally: the whole trace is exactly the
actions up to and including the failing load followed by the `finally`
close, one of the three truncated traces below; in particular no later
read, commit, or write happens, and the trace contains neither
`write_xlsx` nor `write_csv`. -/
theorem c3_load_failure_skips_remaining_phases (p : String → List Eff) (cmd : Command)
    (fmt : String) (o : Oracle)
    (h : o.mtgjson_ok = false ∨
      (Event.read_xlsx ∈ (run_commands p cmd fmt o).trace ∧ o.xlsx_ok = false) ∨
      (Event.read_csv ∈ (run_commands p cmd fmt o).trace ∧ o.csv_ok = false)) :
    ((run_commands p cmd fmt o).trace =
        [Event.read_mtgjson, Event.session_close] ∨
      (run_commands p cmd fmt o).trace =
        [Event.read_mtgjson, Event.commit, Event.read_xlsx, Event.session_close] ∨
      (run_commands p cmd fmt o).trace =
        [Event.read_mtgjson, Event.commit, Event.commit, Event.read_csv,
         Event.session_close]) ∧
    Event.write_xlsx ∉ (run_commands p cmd fmt o).trace ∧
    Event.write_csv ∉ (run_commands p cmd fmt o).trace := by
  obtain ⟨m, x, c, wx, wc⟩ := o
  rw [run_commands_persisted_irrel] at h ⊢
  by_cases hf : fmt = "csv"
  · subst hf
    revert h
    cases cmd <;> cases m <;> cases x <;> cases c <;> cases wx <;> cases wc <;> decide
  · rw [run_commands_fmt_irrel no_persisted cmd ⟨m, x, c, wx, wc⟩ fmt hf] at h ⊢
    revert h
    cases cmd <;> cases m <;> cases x <;> cases c <;> cases wx <;> cases wc <;> decide

/-- C3 witness: an `update` run whose spreadsheet read fails stops right
after the failed read — the trace is exactly catalog read, commit,
failed spreadsheet read, close — and writes neither target file. -/
theorem c3_load_failure_skips_remaining_phases_witness :
    ((run_commands no_persisted Command.update "csv"
        ⟨true, false, true, true, true⟩).trace =
          [Event.read_mtgjson, Event.session_close] ∨
      (run_commands no_persisted Command.update "csv"
        ⟨true, false, true, true, true⟩).trace =
          [Event.read_mtgjson, Event.commit, Event.read_xlsx, Event.session_close] ∨
      (run_commands no_persisted Command.update "csv"
        ⟨true, false, true, true, true⟩).trace =
          [Event.read_mtgjson, Event.commit, Event.commit, Event.read_csv,
           Event.session_close]) ∧
    Event.write_xlsx ∉
      (run_commands no_persisted Command.update "csv" ⟨true, false, true, true, true⟩).trace ∧
    Event.write_csv ∉
      (run_commands no_persisted Command.update "csv" ⟨true, false, true, true, true⟩).trace :=
  c3_load_failure_skips_remaining_phases no_persisted Command.update "csv"
    ⟨true, false, true, true, true⟩ (Or.inr (Or.inl (by decide)))

/-- C5: the prior spreadsheet read happens exactly for `update` and
`export`: when the catalog load succeeds, `read_xlsx` occurs iff the
operation is `update` or `export`; and for `create` and `import` the
spreadsheet read phase is never entered, on any oracle. -/
theorem c5_xlsx_read_iff_update_or_export (p : String → List Eff) (cmd : Command)
    (fmt : String) (o : Oracle) :
    (o.mtgjson_ok = true →
      (Event.read_xlsx ∈ (run_commands p cmd fmt o).trace ↔
        cmd = Command.update ∨ cmd = Command.exportCmd)) ∧
    ((cmd = Command.create ∨ cmd = Command.importCmd) →
      Event.read_xlsx ∉ (run_commands p cmd fmt o).trace) := by
  obtain ⟨m, x, c, wx, wc⟩ := o
  rw [run_commands_persisted_irrel]
  by_cases hf : fmt = "csv"
  · subst hf
    cases cmd <;> cases m <;> cases x <;> cases c <;> cases wx <;> cases wc <;> decide
  · rw [run_commands_fmt_irrel no_persisted cmd ⟨m, x, c, wx, wc⟩ fmt hf]
    cases cmd <;> cases m <;> cases x <;> cases c <;> cases wx <;> cases wc <;> decide

/-- C5 witness: `update` reads the spreadsheet, `import` never does. -/
theorem c5_xlsx_read_iff_update_or_export_witness :
    Event.read_xlsx ∈ (run_commands no_persisted Command.update "csv" all_ok).trace ∧
    Event.read_xlsx ∉ (run_commands no_persisted Command.importCmd "csv" all_ok).trace :=
  ⟨((c5_xlsx_read_iff_update_or_export no_persisted Command.update "csv" all_ok).1
      rfl).mpr (Or.inl rfl),
    (c5_xlsx_read_iff_update_or_export no_persisted Command.importCmd "csv" all_ok).2
      (Or.inr rfl)⟩

/-- C6: when the write phase is reached (every executed load phase
succeeds), `write_xlsx` occurs iff the operation is `create` or
`update`, `write_csv` occurs iff the operation is `export` with format
csv, and no session commit follows any target write. -/
theorem c6_write_phase_targets (p : String → List Eff) (cmd : Command)
    (fmt : String) (o : Oracle)
    (hm : o.mtgjson_ok = true) (hx : o.xlsx_ok = true) (hc : o.csv_ok = true) :
    (Event.write_xlsx ∈ (run_commands p cmd fmt o).trace ↔
      cmd = Command.create ∨ cmd = Command.update) ∧
    (Event.write_csv ∈ (run_commands p cmd fmt o).trace ↔
      cmd = Command.exportCmd ∧ fmt = "csv") ∧
    no_commit_after_write (run_commands p cmd fmt o).trace = true := by
  obtain ⟨m, x, c, wx, wc⟩ := o
  rw [run_commands_persisted_irrel]
  by_cases hf : fmt = "csv"
  · subst hf
    revert hm hx hc
    cases cmd <;> cases m <;> cases x <;> cases c <;> cases wx <;> cases wc <;> decide
  · rw [run_commands_fmt_irrel no_persisted cmd ⟨m, x, c, wx, wc⟩ fmt hf,
      eq_false hf]
    revert hm hx hc
    cases cmd <;> cases m <;> cases x <;> cases c <;> cases wx <;> cases wc <;> decide

/-- C6 witness: `create` writes the spreadsheet, `export` with csv
writes the export file, and no commit follows the export write. -/
theorem c6_write_phase_targets_witness :
    Event.write_xlsx ∈ (run_commands no_persisted Command.create "csv" all_ok).trace ∧
    Event.write_csv ∈ (run_commands no_persisted Command.exportCmd "csv" all_ok).trace ∧
    no_commit_after_write (run_commands no_persisted Command.exportCmd "csv" all_ok).trace
      = true :=
  ⟨(c6_write_phase_targets no_persisted Command.create "csv" all_ok rfl rfl rfl).1.mpr
      (Or.inl rfl),
    (c6_write_phase_targets no_persisted Command.exportCmd "csv" all_ok rfl rfl rfl).2.1.mpr
      ⟨rfl, rfl⟩,
    (c6_write_phase_targets no_persisted Command.exportCmd "csv" all_ok rfl rfl rfl).2.2⟩

/-- C7: each load phase is committed before the next phase begins, and a
failure in a later phase never rolls back an earlier committed phase: a
successful catalog load is committed immediately (the trace starts
`read_mtgjson, commit`) and its rows remain in the committed store no
matter which later phases fail; likewise the rows of a successful
spreadsheet load survive any later failure. -/
theorem c7_phase_commits_isolate (p : String → List Eff) (cmd : Command)
    (fmt : String) (o : Oracle) :
    (o.mtgjson_ok = true →
      (run_commands p cmd fmt o).trace.take 2 = [Event.read_mtgjson, Event.commit] ∧
      Eff.catalog_rows ∈ (run_commands p cmd fmt o).committed) ∧
    (o.mtgjson_ok = true → o.xlsx_ok = true →
      (cmd = Command.update ∨ cmd = Command.exportCmd) →
      Eff.xlsx_rows ∈ (run_commands p cmd fmt o).committed) := by
  obtain ⟨m, x, c, wx, wc⟩ := o
  rw [run_commands_persisted_irrel]
  by_cases hf : fmt = "csv"
  · subst hf
    cases cmd <;> cases m <;> cases x <;> cases c <;> cases wx <;> cases wc <;> decide
  · rw [run_commands_fmt_irrel no_persisted cmd ⟨m, x, c, wx, wc⟩ fmt hf]
    cases cmd <;> cases m <;> cases x <;> cases c <;> cases wx <;> cases wc <;> decide

/-- C7 witness: an `import` run whose csv read fails keeps the catalog
rows committed, and an `update` run whose final write fails keeps both
the catalog and the spreadsheet rows committed. -/
theorem c7_phase_commits_isolate_witness :
    ((run_commands no_persisted Command.importCmd "csv"
        ⟨true, true, false, true, true⟩).trace.take 2 =
          [Event.read_mtgjson, Event.commit] ∧
      Eff.catalog_rows ∈ (run_commands no_persisted Command.importCmd "csv"
        ⟨true, true, false, true, true⟩).committed) ∧
    Eff.xlsx_rows ∈ (run_commands no_persisted Command.update "csv"
      ⟨true, true, true, false, true⟩).committed :=
  ⟨(c7_phase_commits_isolate no_persisted Command.importCmd "csv"
      ⟨true, true, false, true, true⟩).1 rfl,
    (c7_phase_commits_isolate no_persisted Command.update "csv"
      ⟨true, true, true, false, true⟩).2 rfl rfl (Or.inl rfl)⟩

/-- C8: the relational store is ephemeral per run: `run_commands`
creates a fresh engine with the in-memory URL `sqlite://`, so the
session's initial store is empty and the whole run is identical no
matter what any earlier invocation persisted. -/
theorem c8_store_is_ephemeral_per_run (p q : String → List Eff) (cmd : Command)
    (fmt : String) (o : Oracle) :
    create_engine "sqlite://" p = [] ∧
    run_commands p cmd fmt o = run_commands q cmd fmt o :=
  ⟨rfl, rfl⟩

/-- C9: on every execution path, including every path on which a load or
write phase raises, the session is closed before `run_commands` returns:
the last action of the run is always `session_close`. -/
theorem c9_session_always_closed (p : String → List Eff) (cmd : Command)
    (fmt : String) (o : Oracle) :
    (run_commands p cmd fmt o).trace.getLast? = some Event.session_close := by
  simp [run_commands, session_close]

/-- C10: an export run never writes the spreadsheet: on every format
string and every success oracle, no `write_xlsx` call occurs when the
operation is `export`, so the spreadsheet is only read. -/
theorem c10_export_never_writes_spreadsheet (p : String → List Eff)
    (fmt : String) (o : Oracle) :
    Event.write_xlsx ∉ (run_commands p Command.exportCmd fmt o).trace := by
  obtain ⟨m, x, c, wx, wc⟩ := o
  rw [run_commands_persisted_irrel]
  by_cases hf : fmt = "csv"
  · subst hf
    cases m <;> cases x <;> cases c <;> cases wx <;> cases wc <;> decide
  · rw [run_commands_fmt_irrel no_persisted Command.exportCmd ⟨m, x, c, wx, wc⟩ fmt hf]
    cases m <;> cases x <;> cases c <;> cases wx <;> cases wc <;> decide
